import Mathlib

/-!
Shallow embedding of the free-text action resolver of `zagreus_dungeon.py`
(`DungeonMaster.evaluate_action`, `_evaluate_combat`, `_evaluate_combat_ai`,
`_evaluate_exploration`) together with the `GameState` fields the resolver
reads.  Python `int` is modelled as `Int`, `random.randint(lo, hi)` as a draw
from an ambient stream `g : Nat → Nat` at a running index (`randNat`), and the
Python `effects` dict as a record of `Option` fields (a key absent from the
dict is `none`).  The equipment dict has exactly the five keys created in
`GameState.__init__`; subscripting it with any other key is a `KeyError`,
modelled by `Equipped.find` returning `none` and the resolver returning
`Except.error`.
-/

namespace Zagreus

/-- Python substring containment: `needle in hay`. -/
def pyIn (needle hay : String) : Bool :=
  decide (needle.toList <:+: hay.toList)

/-- Python `str.lower()`, character-wise (structurally recursive, unlike
`String.toLower`, so it evaluates inside the kernel). -/
def pyLower (a : String) : String :=
  ⟨a.data.map Char.toLower⟩

/-- Model of `random.randint(lo, hi)` drawn from stream `g` at index `i`:
the raw draw is reduced into the inclusive range `[lo, hi]`. -/
def randNat (g : Nat → Nat) (i lo hi : Nat) : Nat :=
  lo + g i % (hi + 1 - lo)

/-- The nine status-effect counters of `GameState.status_effects`. -/
structure StatusEffects where
  bleeding : Int
  poisoned : Int
  burning : Int
  infected : Int
  stunned : Int
  blessed : Int
  cursed : Int
  hasted : Int
  slowed : Int
deriving DecidableEq

/-- The five equipment slots created in `GameState.__init__`. -/
structure Equipped where
  weapon : Option String
  light : Option String
  armor : Option String
  accessory : Option String
  offhand : Option String
deriving DecidableEq

/-- Subscripting the equipment dict: only the five keys present at
construction succeed; any other key is a `KeyError` (`none`).
No code path ever adds a key to `self.equipped`. -/
def Equipped.find (e : Equipped) (k : String) : Option (Option String) :=
  if k = "weapon" then some e.weapon
  else if k = "light" then some e.light
  else if k = "armor" then some e.armor
  else if k = "accessory" then some e.accessory
  else if k = "offhand" then some e.offhand
  else none

/-- The `combat_bonus` dict of `GameState`. -/
structure CombatBonus where
  damage : Int
  defense : Int
  accuracy : Int
  critical_chance : Int
deriving DecidableEq

/-- The fields of `GameState` the resolver can observe (plus the other
scalar fields of `GameState.__init__`, for the frame property). -/
structure GameState where
  health : Int
  max_health : Int
  stamina : Int
  max_stamina : Int
  strength : Int
  agility : Int
  mind : Int
  hunger : Int
  wetness : Int
  temperature : Int
  sanity : Int
  fear : Int
  status_effects : StatusEffects
  left_arm : Bool
  right_arm : Bool
  left_leg : Bool
  right_leg : Bool
  left_eye : Bool
  right_eye : Bool
  inventory : List String
  max_inventory : Int
  equipped : Equipped
  combat_bonus : CombatBonus
  flags : List String
  location : String
  turn_count : Int
  deaths : Int
deriving DecidableEq

/-- The state built by `GameState.__init__`. -/
def initialState : GameState where
  health := 60
  max_health := 100
  stamina := 50
  max_stamina := 100
  strength := 5
  agility := 5
  mind := 5
  hunger := 30
  wetness := 80
  temperature := 40
  sanity := 70
  fear := 20
  status_effects := ⟨0, 0, 0, 0, 0, 0, 0, 0, 0⟩
  left_arm := true
  right_arm := true
  left_leg := true
  right_leg := true
  left_eye := true
  right_eye := true
  inventory := []
  max_inventory := 10
  equipped := ⟨none, none, none, none, none⟩
  combat_bonus := ⟨0, 0, 0, 0⟩
  flags := []
  location := "flooded_cell"
  turn_count := 0
  deaths := 0

/-- The situational context dict: `in_combat`, the `enemy` sub-dict
(`type`, `weaknesses`) and `enemy_health`, else `location`. -/
structure Ctx where
  in_combat : Bool
  enemy_type : String := "unknown"
  weaknesses : List String := []
  enemy_health : Int := 40
  location : String := "unknown"
deriving DecidableEq

/-- The effects dict of the resolver, one `Option` field per key it can carry;
`none` models the key being absent from the dict. -/
structure Effects where
  damage_taken : Option Int := none
  damage_dealt : Option Int := none
  status : Option (List String) := none
  instant_death : Option Bool := none
  detected : Option Bool := none
  found_item : Option Bool := none
  item_name : Option String := none
  difficulty : Option String := none
  stamina_cost : Option Int := none
  wetness_increase : Option Int := none
  health_restored : Option Int := none
  remove_item : Option String := none
  puzzle_solved : Option Bool := none
  object_broken : Option Bool := none
  information : Option String := none
  hidden : Option Bool := none
deriving DecidableEq

/-- The dict `{"damage_taken": 0, "damage_dealt": 0, "status": []}` that
`_evaluate_combat` starts from. -/
def combatEffects0 : Effects :=
  { damage_taken := some 0, damage_dealt := some 0, status := some [] }

/-- The statement `effects["status"].append(tag)`. -/
def Effects.pushStatus (e : Effects) (tag : String) : Effects :=
  { e with status := some (e.status.getD [] ++ [tag]) }

/-- One resolver return value `(success, description, effects)`, together
with the next unused stream index and the `self.state` object as the method
leaves it (the source never assigns to `self.state` in these methods, so
every return site carries the incoming state). -/
structure ROut where
  succeeded : Bool
  narration : String
  effects : Effects
  nexti : Nat
  state : GameState
deriving DecidableEq

/-- The observable result `(success, description, effects)` together with
the number of draws consumed, without the carried state. -/
def ROut.result (r : ROut) : Bool × String × Effects × Nat :=
  (r.succeeded, r.narration, r.effects, r.nexti)

/-! ## Combat resolver (`DungeonMaster._evaluate_combat`), one definition per
keyword branch, dispatched in source order below. -/

/-- Branch for `"dodge"`/`"evade"`/`"roll"`. -/
def dodgeBranch (s : GameState) (accuracy_mod : Int) (g : Nat → Nat) (i : Nat) : ROut :=
  let success_chance := s.agility * 10 + (if s.equipped.light.isSome then (50 : Int) else 0) + accuracy_mod
  let success_chance := success_chance - (if !s.left_leg || !s.right_leg then (20 : Int) else 0)
  let success_chance := success_chance - (if s.wetness > 60 then (30 : Int) else 0)
  if ((randNat g i 1 100 : Nat) : Int) < success_chance then
    ⟨true, "You successfully dodge the attack!", combatEffects0, i + 1, s⟩
  else
    let dmg : Int := randNat g (i + 1) 10 25
    let dmg := if s.equipped.armor.isSome then max 5 (dmg - 10) else dmg
    ⟨false, s!"You fail to dodge and take {dmg} damage!",
      { combatEffects0 with damage_taken := some dmg }, i + 2, s⟩

/-- Branch for `"block"`/`"parry"`/`"defend"`. -/
def blockBranch (s : GameState) (accuracy_mod : Int) (g : Nat → Nat) (i : Nat) : ROut :=
  if s.equipped.weapon.isNone && s.equipped.offhand.isNone then
    let dmg : Int := randNat g i 15 30
    ⟨false, s!"You have nothing to block with! Take {dmg} damage!",
      { combatEffects0 with damage_taken := some dmg }, i + 1, s⟩
  else
    let block_chance := 60 + s.strength * 5 + accuracy_mod
    if ((randNat g i 1 100 : Nat) : Int) < block_chance then
      let dmg : Int := randNat g (i + 1) 2 8
      ⟨true, s!"You block the attack! Only take {dmg} damage!",
        { combatEffects0 with damage_taken := some dmg }, i + 2, s⟩
    else
      let dmg : Int := randNat g (i + 1) 12 20
      ⟨false, s!"Your block fails! Take {dmg} damage!",
        { combatEffects0 with damage_taken := some dmg }, i + 2, s⟩

/-- Branch for `"eye"`/`"eyes"`. -/
def eyesBranch (ctx : Ctx) (s : GameState) (damage_mod : Int) (g : Nat → Nat) (i : Nat) : ROut :=
  if ctx.weaknesses.contains "eye" || ctx.enemy_type = "rat" || ctx.enemy_type = "ghoul" then
    let damage : Int := (randNat g i 20 40 : Nat) + s.strength + damage_mod
    let damage := if s.equipped.weapon.isSome then damage + 15 else damage
    let e := { combatEffects0 with damage_dealt := some damage }
    if ((randNat g (i + 1) 1 100 : Nat) : Int) > 70 then
      ⟨true, s!"You strike the creature\x27s eye! Critical hit for {damage} damage! It\x27s blinded!",
        e.pushStatus "enemy_blinded", i + 2, s⟩
    else
      ⟨true, s!"You strike the creature\x27s eye! Critical hit for {damage} damage!", e, i + 2, s⟩
  else
    let hit_chance := 30 + s.agility * 3
    if ((randNat g i 1 100 : Nat) : Int) < hit_chance then
      let damage : Int := (randNat g (i + 1) 10 20 : Nat) + s.strength
      ⟨true, s!"You hit for {damage} damage, but eyes aren\x27t its weak point.",
        { combatEffects0 with damage_dealt := some damage }, i + 2, s⟩
    else
      let dmg : Int := randNat g (i + 1) 5 15
      ⟨false, s!"The creature has no vulnerable eyes. It counters, dealing {dmg} damage!",
        { combatEffects0 with damage_taken := some dmg }, i + 2, s⟩

/-- Branch for `"head"`/`"skull"`/`"brain"`. -/
def headBranch (s : GameState) (accuracy_mod damage_mod : Int) (g : Nat → Nat) (i : Nat) : ROut :=
  let hit_chance := 40 + s.agility * 5 + accuracy_mod
  let hit_chance := if s.equipped.light.isSome then hit_chance + 20 else hit_chance
  if ((randNat g i 1 100 : Nat) : Int) < hit_chance then
    let damage : Int := (randNat g (i + 1) 15 30 : Nat) + s.strength + damage_mod
    let damage := if s.equipped.weapon.isSome then damage + 10 else damage
    let e := { combatEffects0 with damage_dealt := some damage }
    if ((randNat g (i + 2) 1 100 : Nat) : Int) > 85 then
      ⟨true, s!"You bash the creature\x27s head for {damage} damage! It\x27s stunned!",
        e.pushStatus "enemy_stunned", i + 3, s⟩
    else
      ⟨true, s!"You bash the creature\x27s head for {damage} damage!", e, i + 3, s⟩
  else
    let dmg : Int := randNat g (i + 1) 10 20
    ⟨false, s!"You miss the head! The creature retaliates for {dmg} damage!",
      { combatEffects0 with damage_taken := some dmg }, i + 2, s⟩

/-- Branch for `"leg"`/`"legs"`/`"knee"`. -/
def legsBranch (ctx : Ctx) (s : GameState) (damage_mod : Int) (g : Nat → Nat) (i : Nat) : ROut :=
  if ctx.weaknesses.contains "legs" then
    let damage : Int := (randNat g i 15 25 : Nat) + s.strength + damage_mod
    let damage := if s.equipped.weapon.isSome then damage + 8 else damage
    ⟨true, s!"You cripple its leg! {damage} damage and it\x27s slowed!",
      ({ combatEffects0 with damage_dealt := some damage }).pushStatus "enemy_slowed", i + 1, s⟩
  else
    let damage : Int := (randNat g i 5 15 : Nat) + s.strength
    let damage := if s.equipped.weapon.isSome then damage + 5 else damage
    ⟨true, s!"You hit its leg for {damage} damage.",
      { combatEffects0 with damage_dealt := some damage }, i + 1, s⟩

/-- Branch for `"throat"`/`"neck"`. -/
def throatBranch (s : GameState) (accuracy_mod damage_mod : Int) (g : Nat → Nat) (i : Nat) : ROut :=
  let hit_chance := 35 + s.agility * 4 + accuracy_mod
  if ((randNat g i 1 100 : Nat) : Int) < hit_chance then
    let damage : Int := (randNat g (i + 1) 25 45 : Nat) + s.strength + damage_mod
    let damage := if s.equipped.weapon.isSome then damage + 20 else damage
    ⟨true, s!"CRITICAL! You slash its throat for {damage} damage! It\x27s bleeding out!",
      ({ combatEffects0 with damage_dealt := some damage }).pushStatus "enemy_bleeding", i + 2, s⟩
  else
    let dmg : Int := randNat g (i + 1) 15 25
    ⟨false, s!"You miss the critical strike! It savages you for {dmg} damage!",
      { combatEffects0 with damage_taken := some dmg }, i + 2, s⟩

/-- Branch for `"fire"`/`"burn"`/`"torch"`. -/
def fireBranch (ctx : Ctx) (s : GameState) (g : Nat → Nat) (i : Nat) : ROut :=
  if s.equipped.light.any fun l => pyIn "torch" l.toLower then
    if ctx.weaknesses.contains "fire" || ctx.enemy_type = "ghoul" then
      let damage : Int := randNat g i 30 50
      ⟨true, s!"You set it ablaze! {damage} damage! It\x27s burning!",
        ({ combatEffects0 with damage_dealt := some damage }).pushStatus "enemy_burning", i + 1, s⟩
    else
      let damage : Int := randNat g i 10 20
      ⟨true, s!"You burn it for {damage} damage, but it\x27s not very effective.",
        { combatEffects0 with damage_dealt := some damage }, i + 1, s⟩
  else
    ⟨false, "You have no fire source!", combatEffects0, i, s⟩

/-- Branch for `"feint"`/`"fake"`/`"trick"`. -/
def feintBranch (s : GameState) (g : Nat → Nat) (i : Nat) : ROut :=
  let trick_chance := 40 + s.mind * 8
  if ((randNat g i 1 100 : Nat) : Int) < trick_chance then
    ⟨true, "You successfully feint! The enemy is open for a follow-up attack!",
      combatEffects0.pushStatus "enemy_open", i + 1, s⟩
  else
    let dmg : Int := randNat g (i + 1) 8 16
    ⟨false, s!"Your feint fails! You\x27re exposed! Take {dmg} damage!",
      { combatEffects0 with damage_taken := some dmg }, i + 2, s⟩

/-- Branch for `"grapple"`/`"wrestle"`/`"grab"`. -/
def grappleBranch (ctx : Ctx) (s : GameState) (g : Nat → Nat) (i : Nat) : ROut :=
  if s.strength < 4 then
    ⟨false, "You\x27re not strong enough to grapple effectively!", combatEffects0, i, s⟩
  else
    let grapple_chance :=
      50 + s.strength * 10 - (if ctx.enemy_type = "ghoul" ∨ ctx.enemy_type = "harvester" then (20 : Int) else 0)
    if ((randNat g i 1 100 : Nat) : Int) < grapple_chance then
      ⟨true, "You successfully grapple the creature! It\x27s restrained!",
        combatEffects0.pushStatus "enemy_grappled", i + 1, s⟩
    else
      let dmg : Int := randNat g (i + 1) 12 22
      ⟨false, s!"The grapple fails! It breaks free and strikes you for {dmg} damage!",
        { combatEffects0 with damage_taken := some dmg }, i + 2, s⟩

/-- Generic-attack fallback at the end of `_evaluate_combat`. -/
def genericAttack (s : GameState) (accuracy_mod damage_mod : Int) (g : Nat → Nat) (i : Nat) : ROut :=
  let weapon_bonus : Int := if s.equipped.weapon.isSome then 10 else 0
  let light_bonus : Int := if s.equipped.light.isSome then 10 else -20
  let crit_chance := 5 + s.agility + s.combat_bonus.critical_chance
  let is_crit := ((randNat g i 1 100 : Nat) : Int) ≤ crit_chance
  let damage := max 1 ((randNat g (i + 1) 5 15 : Nat) + s.strength + weapon_bonus + light_bonus
    + damage_mod + s.combat_bonus.damage)
  if is_crit then
    let damage := damage * 2
    ⟨true, s!"CRITICAL HIT! You deal {damage} damage!",
      ({ combatEffects0 with damage_dealt := some damage }).pushStatus "critical_hit", i + 2, s⟩
  else
    let e := { combatEffects0 with damage_dealt := some damage }
    let counter_chance := 50 - s.agility * 3 - accuracy_mod
    let counter_chance := if s.equipped.armor.isSome then counter_chance - 15 else counter_chance
    if ((randNat g (i + 2) 1 100 : Nat) : Int) < counter_chance then
      let counter_damage : Int := randNat g (i + 3) 8 18
      let counter_damage := if s.equipped.armor.isSome then max 3 (counter_damage - 8) else counter_damage
      ⟨true, s!"You deal {damage} damage but take {counter_damage} in return!",
        { e with damage_taken := some counter_damage }, i + 4, s⟩
    else
      ⟨true, s!"You strike for {damage} damage!", e, i + 3, s⟩

/-- The local `accuracy_mod` of `_evaluate_combat`: `+15` when hasted,
`-15` when slowed. -/
def accuracyMod (s : GameState) : Int :=
  (if s.status_effects.hasted > 0 then 15 else 0) + (if s.status_effects.slowed > 0 then -15 else 0)

/-- The local `damage_mod`, initialised to 0 and never reassigned. -/
def damageMod (_s : GameState) : Int := 0

/-- Model of `DungeonMaster._evaluate_combat`: the stunned early-exit (the
`accuracy_mod`/`damage_mod` locals are `accuracyMod`/`damageMod`), then the
keyword dispatch in source order.  `action` is the lowercased action
text. -/
def evaluate_combat (action : String) (ctx : Ctx) (s : GameState) (g : Nat → Nat) (i : Nat) : ROut :=
  if s.status_effects.stunned > 0 then
    ⟨false, "You\x27re stunned and cannot act effectively this turn!", combatEffects0, i, s⟩
  else if pyIn "dodge" action || pyIn "evade" action || pyIn "roll" action then
    dodgeBranch s (accuracyMod s) g i
  else if pyIn "block" action || pyIn "parry" action || pyIn "defend" action then
    blockBranch s (accuracyMod s) g i
  else if pyIn "eye" action || pyIn "eyes" action then
    eyesBranch ctx s (damageMod s) g i
  else if pyIn "head" action || pyIn "skull" action || pyIn "brain" action then
    headBranch s (accuracyMod s) (damageMod s) g i
  else if pyIn "leg" action || pyIn "legs" action || pyIn "knee" action then
    legsBranch ctx s (damageMod s) g i
  else if pyIn "throat" action || pyIn "neck" action then
    throatBranch s (accuracyMod s) (damageMod s) g i
  else if pyIn "fire" action || pyIn "burn" action || pyIn "torch" action then
    fireBranch ctx s g i
  else if pyIn "feint" action || pyIn "fake" action || pyIn "trick" action then
    feintBranch s g i
  else if pyIn "grapple" action || pyIn "wrestle" action || pyIn "grab" action then
    grappleBranch ctx s g i
  else
    genericAttack s (accuracyMod s) (damageMod s) g i

/-! ## Exploration resolver (`DungeonMaster._evaluate_exploration`).
Exploration starts from an empty effects dict.  The climb branch subscripts
the equipment dict with the key `"rope"`, which `GameState.__init__` never
creates and no code path ever adds, so it is a `KeyError`
(`Except.error`). -/

/-- Branch for `"sneak"`/`"stealth"`/`"quiet"`. -/
def sneakBranch (s : GameState) (g : Nat → Nat) (i : Nat) : ROut :=
  let stealth_chance := 40 + s.agility * 8
  let stealth_chance := stealth_chance - (if s.wetness > 50 then (20 : Int) else 0)
  let stealth_chance := stealth_chance - (if s.equipped.armor.isSome then (15 : Int) else 0)
  let stealth_chance := stealth_chance + (if s.equipped.light.isNone then (10 : Int) else -10)
  if ((randNat g i 1 100 : Nat) : Int) < stealth_chance then
    ⟨true, "You move silently through the shadows, undetected.", {}, i + 1, s⟩
  else
    ⟨false, "You make noise! Something has noticed you!", { detected := some true }, i + 1, s⟩

/-- The `if "search" in action:` body inside the look branch. -/
def searchAttempt (s : GameState) (g : Nat → Nat) (i : Nat) : ROut :=
  let find_chance := (if s.equipped.light.isSome then (40 : Int) else 10) + s.mind * 3
  if ((randNat g i 1 100 : Nat) : Int) < find_chance then
    let items := ["healing herbs", "rusty dagger", "torch", "dried food", "rope", "lockpick"]
    let item := items.getD (g (i + 1) % 6) ""
    ⟨true, s!"You find {item}!", { found_item := some true, item_name := some item }, i + 2, s⟩
  else
    ⟨false, "You search but find nothing of value.", {}, i + 1, s⟩

/-- The `"search"`/`"look"`/`"examine"` branch: either a return value
(`.inl`) or a fall-through to the branches below it with the next stream
index (`.inr`) — the source returns nothing when the darkness check passes
and the action does not contain `"search"`.  The darkness roll is only drawn
when no light is equipped (Python short-circuit `and`). -/
def lookStep (action : String) (s : GameState) (g : Nat → Nat) (i : Nat) : ROut ⊕ Nat :=
  if s.equipped.light.isNone then
    if ((randNat g i 1 100 : Nat) : Int) > 30 then
      .inl ⟨false, "It\x27s too dark to see anything clearly. You fumble around blindly.", {}, i + 1, s⟩
    else if pyIn "search" action then .inl (searchAttempt s g (i + 1))
    else .inr (i + 1)
  else if pyIn "search" action then .inl (searchAttempt s g i)
  else .inr i

/-- Branch for `"climb"`/`"jump"`/`"leap"`.  After the arm check it evaluates
`self.state.equipped["rope"]`: the dict has no such key, hence the
`KeyError`. -/
def climbBranch (s : GameState) (g : Nat → Nat) (i : Nat) : Except String ROut :=
  if !s.left_arm || !s.right_arm then
    .ok ⟨false, "You can\x27t climb with your injured arms!", {}, i, s⟩
  else
    let e : Effects := if !s.left_leg || !s.right_leg then { difficulty := some "very hard" } else {}
    let success_chance := s.agility * 8 + s.strength * 5
    let success_chance := success_chance - (if s.wetness > 60 then (20 : Int) else 0)
    let success_chance := success_chance - (if s.stamina < 30 then (15 : Int) else 0)
    match s.equipped.find "rope" with
    | none => .error "KeyError: rope"
    | some rope =>
      let success_chance := success_chance + (if rope.isSome then (10 : Int) else 0)
      if ((randNat g i 1 100 : Nat) : Int) < success_chance then
        .ok ⟨true, "You successfully make the climb!", { e with stamina_cost := some 15 }, i + 1, s⟩
      else
        let dmg : Int := randNat g (i + 1) 10 30
        .ok ⟨false, s!"You fall! Taking {dmg} damage!",
          { e with damage_taken := some dmg, stamina_cost := some 10 }, i + 2, s⟩

/-- Branch for `"swim"`/`"dive"`/`"underwater"` (`//` is Python floor
division). -/
def swimBranch (s : GameState) (g : Nat → Nat) (i : Nat) : ROut :=
  let swim_chance := 60 + Int.fdiv s.stamina 10
  let swim_chance := swim_chance - (if s.equipped.armor.isSome then (20 : Int) else 0)
  let swim_chance := swim_chance - (if !s.left_arm || !s.right_arm then (30 : Int) else 0)
  if ((randNat g i 1 100 : Nat) : Int) < swim_chance then
    ⟨true, "You swim successfully through the water.",
      { stamina_cost := some 20, wetness_increase := some 20 }, i + 1, s⟩
  else
    let dmg : Int := randNat g (i + 1) 5 15
    ⟨false, s!"You struggle in the water! Taking {dmg} damage from exhaustion!",
      { damage_taken := some dmg, stamina_cost := some 25, wetness_increase := some 30 }, i + 2, s⟩

/-- Branch for `"persuade"`/`"convince"`/`"talk"`/`"negotiate"`. -/
def persuadeBranch (s : GameState) (g : Nat → Nat) (i : Nat) : ROut :=
  let persuasion_chance := 30 + s.mind * 7
  let persuasion_chance := persuasion_chance + (if s.sanity > 70 then (15 : Int) else -15)
  if ((randNat g i 1 100 : Nat) : Int) < persuasion_chance then
    ⟨true, "Your words seem to have an effect...", {}, i + 1, s⟩
  else
    ⟨false, "Your attempt to persuade fails to convince them.", {}, i + 1, s⟩

/-- Branch for `"solve"`/`"decipher"`/`"puzzle"`/`"read"`. -/
def solveBranch (s : GameState) (g : Nat → Nat) (i : Nat) : ROut :=
  let intelligence_chance := 30 + s.mind * 10
  let intelligence_chance := intelligence_chance + (if s.equipped.light.isSome then (20 : Int) else -30)
  let intelligence_chance := intelligence_chance - (if s.sanity < 50 then (20 : Int) else 0)
  if ((randNat g i 1 100 : Nat) : Int) < intelligence_chance then
    ⟨true, "You figure it out! The solution becomes clear.", { puzzle_solved := some true }, i + 1, s⟩
  else
    ⟨false, "The puzzle eludes you. You can\x27t make sense of it.", {}, i + 1, s⟩

/-- Branch for `"trap"`/`"disarm"`/`"disable"`.  The test `"lockpick" in
str(self.state.inventory)` holds exactly when some inventory item contains
`"lockpick"` (the phrase cannot straddle the list repr separators). -/
def trapBranch (s : GameState) (g : Nat → Nat) (i : Nat) : ROut :=
  let trap_chance := 35 + s.agility * 6 + s.mind * 4
  let trap_chance := trap_chance + (if s.inventory.any (fun it => pyIn "lockpick" it) then (25 : Int) else 0)
  if ((randNat g i 1 100 : Nat) : Int) < trap_chance then
    ⟨true, "You successfully identify and disarm the trap!", {}, i + 1, s⟩
  else
    let dmg : Int := randNat g (i + 1) 15 35
    ⟨false, s!"You trigger the trap! Taking {dmg} damage!", { damage_taken := some dmg }, i + 2, s⟩

/-- Branch for `"heal"`/`"bandage"`/`"medicine"` (same `str(inventory)`
substring reading as `trapBranch`). -/
def healBranch (s : GameState) (g : Nat → Nat) (i : Nat) : ROut :=
  if s.inventory.any (fun it => pyIn "healing herbs" it)
      || s.inventory.any (fun it => pyIn "medical supplies" it) then
    let hr : Int := randNat g i 15 30
    ⟨true, s!"You treat your wounds, restoring {hr} health!",
      { health_restored := some hr, remove_item := some "healing herbs" }, i + 1, s⟩
  else
    let hr : Int := randNat g i 3 8
    ⟨true, s!"You do your best with no supplies, restoring {hr} health.",
      { health_restored := some hr }, i + 1, s⟩

/-- Branch for `"break"`/`"smash"`/`"destroy"`. -/
def breakBranch (s : GameState) (g : Nat → Nat) (i : Nat) : ROut :=
  let break_chance := 50 + s.strength * 10
  let break_chance := break_chance + (if s.equipped.weapon.isSome then (20 : Int) else 0)
  if ((randNat g i 1 100 : Nat) : Int) < break_chance then
    ⟨true, "You smash it apart!", { object_broken := some true }, i + 1, s⟩
  else
    let dmg : Int := randNat g (i + 1) 3 10
    ⟨false, s!"It doesn\x27t break! You hurt yourself for {dmg} damage!",
      { damage_taken := some dmg }, i + 2, s⟩

/-- Branch for `"listen"`/`"hear"`. -/
def listenBranch (s : GameState) (g : Nat → Nat) (i : Nat) : ROut :=
  let perception_chance := 40 + s.mind * 8
  let perception_chance := perception_chance - (if s.sanity < 40 then (30 : Int) else 0)
  if ((randNat g i 1 100 : Nat) : Int) < perception_chance then
    ⟨true, "You listen carefully and hear valuable information.",
      { information := some "You hear something important..." }, i + 1, s⟩
  else
    ⟨false, "You hear only the ambient sounds of the dungeon.", {}, i + 1, s⟩

/-- Branch for `"hide"`/`"conceal"`. -/
def hideBranch (s : GameState) (g : Nat → Nat) (i : Nat) : ROut :=
  let hide_chance := 45 + s.agility * 7
  let hide_chance := hide_chance - (if s.equipped.light.isSome then (25 : Int) else 0)
  let hide_chance := hide_chance - (if s.equipped.armor.isSome then (15 : Int) else 0)
  if ((randNat g i 1 100 : Nat) : Int) < hide_chance then
    ⟨true, "You find a hiding spot and conceal yourself.", { hidden := some true }, i + 1, s⟩
  else
    ⟨false, "There\x27s nowhere to hide! You remain exposed!", {}, i + 1, s⟩

/-- The rules checked after the look branch (the look branch can fall
through into these). -/
def explorationRest (action : String) (s : GameState) (g : Nat → Nat) (i : Nat) :
    Except String ROut :=
  if pyIn "climb" action || pyIn "jump" action || pyIn "leap" action then
    climbBranch s g i
  else if pyIn "swim" action || pyIn "dive" action || pyIn "underwater" action then
    .ok (swimBranch s g i)
  else if pyIn "persuade" action || pyIn "convince" action || pyIn "talk" action
      || pyIn "negotiate" action then
    .ok (persuadeBranch s g i)
  else if pyIn "solve" action || pyIn "decipher" action || pyIn "puzzle" action
      || pyIn "read" action then
    .ok (solveBranch s g i)
  else if pyIn "trap" action || pyIn "disarm" action || pyIn "disable" action then
    .ok (trapBranch s g i)
  else if pyIn "heal" action || pyIn "bandage" action || pyIn "medicine" action then
    .ok (healBranch s g i)
  else if pyIn "break" action || pyIn "smash" action || pyIn "destroy" action then
    .ok (breakBranch s g i)
  else if pyIn "listen" action || pyIn "hear" action then
    .ok (listenBranch s g i)
  else if pyIn "hide" action || pyIn "conceal" action then
    .ok (hideBranch s g i)
  else
    .ok ⟨true, "You attempt your action...", {}, i, s⟩

/-- Model of `DungeonMaster._evaluate_exploration` (`action` is the lowercased
action text). -/
def evaluate_exploration (action : String) (ctx : Ctx) (s : GameState) (g : Nat → Nat) (i : Nat) :
    Except String ROut :=
  let _location := ctx.location
  if pyIn "sneak" action || pyIn "stealth" action || pyIn "quiet" action then
    .ok (sneakBranch s g i)
  else if pyIn "search" action || pyIn "look" action || pyIn "examine" action then
    match lookStep action s g i with
    | .inl r => .ok r
    | .inr j => explorationRest action s g j
  else
    explorationRest action s g i

/-! ## The AI path and the entry point. -/

/-- The parsed JSON object the remote evaluator is asked to return. -/
structure AIResp where
  success : Bool
  description : String
  damage_taken : Int
  damage_dealt : Int
  instant_death : Bool
deriving DecidableEq

/-- Model of `DungeonMaster._evaluate_combat_ai`: the remote call plus JSON parsing
plus field access is one fallible step (`aiResult`); any exception falls
back to `self._evaluate_combat(action.lower(), context)`. -/
def evaluate_combat_ai (action : String) (aiResult : Except String AIResp) (ctx : Ctx)
    (s : GameState) (g : Nat → Nat) (i : Nat) : ROut :=
  match aiResult with
  | .error _ => evaluate_combat (pyLower action) ctx s g i
  | .ok r =>
    ⟨r.success, r.description,
      { damage_taken := some r.damage_taken, damage_dealt := some r.damage_dealt,
        instant_death := some r.instant_death, status := some [] }, i, s⟩

/-- Model of `DungeonMaster.evaluate_action`: lowercase the text, then dispatch on
`context.get("in_combat")` and `self.ai_enabled`. -/
def evaluate_action (ai_enabled : Bool) (aiResult : Except String AIResp) (action : String)
    (ctx : Ctx) (s : GameState) (g : Nat → Nat) (i : Nat) : Except String ROut :=
  let action_lower := pyLower action
  if ctx.in_combat then
    if ai_enabled then .ok (evaluate_combat_ai action aiResult ctx s g i)
    else .ok (evaluate_combat action_lower ctx s g i)
  else
    evaluate_exploration action_lower ctx s g i

/-! ## Concrete fixtures used by witnesses and counterexamples. -/

/-- Stream that always draws 0 (every `randint` yields its lower bound). -/
def g0 : Nat → Nat := fun _ => 0

/-- Stream whose first draw is 50 and later draws are 0. -/
def gFirst50 : Nat → Nat := fun n => if n = 0 then 50 else 0

/-- Stream that always draws 99 (`randint(1,100)` yields 100). -/
def g99 : Nat → Nat := fun _ => 99

/-- Stream that always draws 30 (`randint(1,100)` yields 31). -/
def g30 : Nat → Nat := fun _ => 30

/-- An exploration context. -/
def ctxExplore : Ctx := { in_combat := false }

/-- A combat context against an unknown enemy. -/
def ctxCombat : Ctx := { in_combat := true }

/-- The fresh state with a torch equipped in the light slot. -/
def sLight : GameState :=
  { initialState with equipped := { initialState.equipped with light := some "torch" } }

/-- The fresh state with agility 10 and wetness 50. -/
def sAgility10 : GameState := { initialState with agility := 10, wetness := 50 }

/-- The fresh state with an active stunned counter. -/
def sStunned : GameState :=
  { initialState with status_effects := { initialState.status_effects with stunned := 2 } }

/-- The fresh state with strength 3. -/
def sStrength3 : GameState := { initialState with strength := 3 }

/-! ## Claims. -/

/-- C4: in combat with a positive stunned counter, the resolver returns
`succeeded = false`, the zero-initialised effects dict and the fixed
narration, for every action text, consuming no random draw — the early exit
fires before any intent keyword is classified. -/
theorem stunned_early_exit (action : String) (ctx : Ctx) (s : GameState) (g : Nat → Nat)
    (i : Nat) (h : s.status_effects.stunned > 0) :
    evaluate_combat action ctx s g i =
      ⟨false, "You\x27re stunned and cannot act effectively this turn!", combatEffects0, i, s⟩ := by
  unfold evaluate_combat
  simp [h]

/-- Witness for C4 at a concrete stunned state and action. -/
theorem stunned_early_exit_witness :
    evaluate_combat "attack the eyes" ctxCombat sStunned g0 0 =
      ⟨false, "You\x27re stunned and cannot act effectively this turn!", combatEffects0, 0, sStunned⟩ :=
  stunned_early_exit "attack the eyes" ctxCombat sStunned g0 0 (by decide)

/-- C6: when the remote evaluator fails (any exception, unparseable output or
missing field, all modelled by the oracle being an error), `evaluate_action`
returns the well-formed result of the deterministic combat resolver on the
lowercased text — identical to the result with AI disabled — and never
propagates the error. -/
theorem ai_fallback (e : String) (action : String) (ctx : Ctx) (s : GameState)
    (g : Nat → Nat) (i : Nat) :
    (ctx.in_combat = true →
      evaluate_action true (.error e) action ctx s g i =
        .ok (evaluate_combat (pyLower action) ctx s g i)) ∧
    evaluate_action true (.error e) action ctx s g i =
      evaluate_action false (.error e) action ctx s g i := by
  constructor
  · intro h
    unfold evaluate_action evaluate_combat_ai
    simp [h]
  · unfold evaluate_action evaluate_combat_ai
    by_cases h : ctx.in_combat <;> simp [h]

/-- Witness for C6 at a concrete combat call with a failing oracle. -/
theorem ai_fallback_witness :
    evaluate_action true (.error "boom") "Dodge!" ctxCombat initialState g0 0 =
      .ok (evaluate_combat (pyLower "Dodge!") ctxCombat initialState g0 0) :=
  (ai_fallback "boom" "Dodge!" ctxCombat initialState g0 0).1 rfl

/-- C1: a climb/jump/leap action evaluated out of combat with both arms
intact never returns a result at all: the resolver evaluates
`self.state.equipped["rope"]`, a key the equipment dict never has, so the
call raises `KeyError` for every such actor state before any success chance
is compared — contradicting the documented `+10 if a rope is equipped`
bonus and the claim that a well-formed triple is returned. -/
theorem climb_raises_keyerror (ai : Bool) (aio : Except String AIResp) (ctx : Ctx)
    (s : GameState) (g : Nat → Nat) (i : Nat) (hc : ctx.in_combat = false)
    (hl : s.left_arm = true) (hr : s.right_arm = true) :
    evaluate_action ai aio "climb the wall" ctx s g i = .error "KeyError: rope" := by
  unfold evaluate_action
  simp only [hc, Bool.false_eq_true, if_false]
  show climbBranch s g i = Except.error "KeyError: rope"
  unfold climbBranch
  rw [hl, hr]
  rfl

/-- Witness for C1: the fresh `GameState` (both arms intact) crashes on a
climb. -/
theorem climb_raises_keyerror_witness :
    evaluate_action false (.error "") "climb the wall" ctxExplore initialState g0 0 =
      .error "KeyError: rope" :=
  climb_raises_keyerror false (.error "") ctxExplore initialState g0 0 rfl rfl rfl

/-- C2 counterexample: for the fixed input `"look at the trap"` out of
combat, two states that differ only in the light slot are handled by
different rules with the same random draws: with no light the look rule
returns the darkness failure, while with a light equipped evaluation falls
through the look rule and the trap rule decides the outcome — so the chosen
branch is not a function of `(actionText, inCombat)` alone and the
search/look/examine rule does not decide `"look at the trap"`. -/
theorem look_branch_depends_on_state :
    evaluate_exploration "look at the trap" ctxExplore initialState g30 0 =
      .ok ⟨false, "It\x27s too dark to see anything clearly. You fumble around blindly.",
        {}, 1, initialState⟩ ∧
    evaluate_exploration "look at the trap" ctxExplore sLight g30 0 =
      .ok ⟨true, "You successfully identify and disarm the trap!", {}, 1, sLight⟩ := by
  exact ⟨rfl, rfl⟩

/-- C2 amended: a look/examine input that does not contain `"search"` only
returns from the look rule on the darkness failure; otherwise evaluation
falls through to the later rules — with a light equipped,
`"look at the trap"` is resolved identically to `"disarm the trap"`, i.e. by
the trap rule. -/
theorem look_falls_through (ctx : Ctx) (s : GameState) (g : Nat → Nat) (i : Nat)
    (h : s.equipped.light.isNone = false) :
    evaluate_exploration "look at the trap" ctx s g i =
      evaluate_exploration "disarm the trap" ctx s g i := by
  have hstep : lookStep "look at the trap" s g i = .inr i := by
    unfold lookStep
    rw [h]
    rfl
  show (match lookStep "look at the trap" s g i with
        | .inl r => Except.ok r
        | .inr j => explorationRest "look at the trap" s g j) =
      explorationRest "disarm the trap" s g i
  rw [hstep]
  rfl

/-- Witness for the C2 amended statement at a concrete lit state. -/
theorem look_falls_through_witness :
    evaluate_exploration "look at the trap" ctxExplore sLight g30 0 =
      evaluate_exploration "disarm the trap" ctxExplore sLight g30 0 :=
  look_falls_through ctxExplore sLight g30 0 rfl

/-- C3 counterexample: the generic-attack counter case returns both damage
keys nonzero in a single result (`damage_taken = 8`, `damage_dealt = 1`),
and a successful dodge returns a combat effects dict that still carries both
damage keys, present with value `0` — so the effects map is neither
"at most one damage key populated" nor sparse. -/
theorem both_damage_keys_nonzero :
    evaluate_combat "attack" ctxCombat initialState gFirst50 0 =
      ⟨true, "You deal 1 damage but take 8 in return!",
        { damage_taken := some 8, damage_dealt := some 1, status := some [] }, 4, initialState⟩ ∧
    evaluate_combat "dodge" ctxCombat initialState g0 0 =
      ⟨true, "You successfully dodge the attack!", combatEffects0, 1, initialState⟩ := by
  exact ⟨rfl, rfl⟩

/-- Both damage keys are present in the effects dict, and they are both
nonzero only in the generic-attack counter case: any result carrying two
nonzero damage values is a success whose narration is the counter
narration reporting exactly those two values — no other branch produces
such a result. -/
def damageKeysOk (r : ROut) : Prop :=
  (r.effects.damage_taken.isSome = true ∧ r.effects.damage_dealt.isSome = true) ∧
  (r.effects.damage_taken.getD 0 ≠ 0 → r.effects.damage_dealt.getD 0 ≠ 0 →
    r.succeeded = true ∧
    r.narration =
      s!"You deal {r.effects.damage_dealt.getD 0} damage but take {r.effects.damage_taken.getD 0} in return!")

theorem damageKeysOk_dodge (s : GameState) (am : Int) (g : Nat → Nat) (i : Nat) :
    damageKeysOk (dodgeBranch s am g i) := by
  unfold damageKeysOk dodgeBranch
  dsimp only
  (repeat' split) <;> simp [combatEffects0]

theorem damageKeysOk_block (s : GameState) (am : Int) (g : Nat → Nat) (i : Nat) :
    damageKeysOk (blockBranch s am g i) := by
  unfold damageKeysOk blockBranch
  dsimp only
  (repeat' split) <;> simp [combatEffects0]

theorem damageKeysOk_eyes (ctx : Ctx) (s : GameState) (dm : Int) (g : Nat → Nat) (i : Nat) :
    damageKeysOk (eyesBranch ctx s dm g i) := by
  unfold damageKeysOk eyesBranch
  dsimp only
  (repeat' split) <;> simp [combatEffects0, Effects.pushStatus]

theorem damageKeysOk_head (s : GameState) (am dm : Int) (g : Nat → Nat) (i : Nat) :
    damageKeysOk (headBranch s am dm g i) := by
  unfold damageKeysOk headBranch
  dsimp only
  (repeat' split) <;> simp [combatEffects0, Effects.pushStatus]

theorem damageKeysOk_legs (ctx : Ctx) (s : GameState) (dm : Int) (g : Nat → Nat) (i : Nat) :
    damageKeysOk (legsBranch ctx s dm g i) := by
  unfold damageKeysOk legsBranch
  dsimp only
  (repeat' split) <;> simp [combatEffects0, Effects.pushStatus]

theorem damageKeysOk_throat (s : GameState) (am dm : Int) (g : Nat → Nat) (i : Nat) :
    damageKeysOk (throatBranch s am dm g i) := by
  unfold damageKeysOk throatBranch
  dsimp only
  (repeat' split) <;> simp [combatEffects0, Effects.pushStatus]

theorem damageKeysOk_fire (ctx : Ctx) (s : GameState) (g : Nat → Nat) (i : Nat) :
    damageKeysOk (fireBranch ctx s g i) := by
  unfold damageKeysOk fireBranch
  dsimp only
  (repeat' split) <;> simp [combatEffects0, Effects.pushStatus]

theorem damageKeysOk_feint (s : GameState) (g : Nat → Nat) (i : Nat) :
    damageKeysOk (feintBranch s g i) := by
  unfold damageKeysOk feintBranch
  dsimp only
  (repeat' split) <;> simp [combatEffects0, Effects.pushStatus]

theorem damageKeysOk_grapple (ctx : Ctx) (s : GameState) (g : Nat → Nat) (i : Nat) :
    damageKeysOk (grappleBranch ctx s g i) := by
  unfold damageKeysOk grappleBranch
  dsimp only
  (repeat' split) <;> simp [combatEffects0, Effects.pushStatus]

theorem damageKeysOk_generic (s : GameState) (am dm : Int) (g : Nat → Nat) (i : Nat) :
    damageKeysOk (genericAttack s am dm g i) := by
  unfold damageKeysOk genericAttack
  dsimp only
  (repeat' split) <;> simp [combatEffects0, Effects.pushStatus]

/-- A sparse exploration effects dict, as far as the damage keys go:
`damage_dealt` and `status` are never present at all, and `damage_taken` is
never present with the value zero — absent keys, not zeroes, mean "no
effect". -/
def explSparse (r : ROut) : Prop :=
  r.effects.damage_dealt = none ∧ r.effects.status = none ∧
    r.effects.damage_taken ≠ some 0

theorem explSparse_sneak (s : GameState) (g : Nat → Nat) (i : Nat) :
    explSparse (sneakBranch s g i) := by
  unfold explSparse sneakBranch
  dsimp only
  (repeat' split) <;> (simp [randNat]; try omega)

theorem explSparse_search (s : GameState) (g : Nat → Nat) (i : Nat) :
    explSparse (searchAttempt s g i) := by
  unfold explSparse searchAttempt
  dsimp only
  (repeat' split) <;> (simp [randNat]; try omega)

theorem explSparse_swim (s : GameState) (g : Nat → Nat) (i : Nat) :
    explSparse (swimBranch s g i) := by
  unfold explSparse swimBranch
  dsimp only
  (repeat' split) <;> (simp [randNat]; try omega)

theorem explSparse_persuade (s : GameState) (g : Nat → Nat) (i : Nat) :
    explSparse (persuadeBranch s g i) := by
  unfold explSparse persuadeBranch
  dsimp only
  (repeat' split) <;> (simp [randNat]; try omega)

theorem explSparse_solve (s : GameState) (g : Nat → Nat) (i : Nat) :
    explSparse (solveBranch s g i) := by
  unfold explSparse solveBranch
  dsimp only
  (repeat' split) <;> (simp [randNat]; try omega)

theorem explSparse_trap (s : GameState) (g : Nat → Nat) (i : Nat) :
    explSparse (trapBranch s g i) := by
  unfold explSparse trapBranch
  dsimp only
  (repeat' split) <;> (simp [randNat]; try omega)

theorem explSparse_heal (s : GameState) (g : Nat → Nat) (i : Nat) :
    explSparse (healBranch s g i) := by
  unfold explSparse healBranch
  dsimp only
  (repeat' split) <;> (simp [randNat]; try omega)

theorem explSparse_break (s : GameState) (g : Nat → Nat) (i : Nat) :
    explSparse (breakBranch s g i) := by
  unfold explSparse breakBranch
  dsimp only
  (repeat' split) <;> (simp [randNat]; try omega)

theorem explSparse_listen (s : GameState) (g : Nat → Nat) (i : Nat) :
    explSparse (listenBranch s g i) := by
  unfold explSparse listenBranch
  dsimp only
  (repeat' split) <;> (simp [randNat]; try omega)

theorem explSparse_hide (s : GameState) (g : Nat → Nat) (i : Nat) :
    explSparse (hideBranch s g i) := by
  unfold explSparse hideBranch
  dsimp only
  (repeat' split) <;> (simp [randNat]; try omega)

theorem explSparse_climb (s : GameState) (g : Nat → Nat) (i : Nat) (r : ROut)
    (h : climbBranch s g i = .ok r) : explSparse r := by
  unfold climbBranch at h
  split at h
  · cases h
    simp [explSparse]
  · dsimp only at h
    (repeat' split at h) <;> first
      | (cases h; simp [explSparse, randNat]; try omega)
      | exact Except.noConfusion h

theorem explSparse_lookStep (action : String) (s : GameState) (g : Nat → Nat) (i : Nat)
    (r : ROut) (h : lookStep action s g i = .inl r) : explSparse r := by
  unfold lookStep at h
  split at h
  · split at h
    · cases h
      simp [explSparse]
    · split at h
      · cases h
        exact explSparse_search ..
      · exact Sum.noConfusion h
  · split at h
    · cases h
      exact explSparse_search ..
    · exact Sum.noConfusion h

theorem explSparse_rest (action : String) (s : GameState) (g : Nat → Nat) (i : Nat)
    (r : ROut) (h : explorationRest action s g i = .ok r) : explSparse r := by
  unfold explorationRest at h
  split at h
  · exact explSparse_climb _ _ _ _ h
  · split at h
    · cases h
      exact explSparse_swim ..
    · split at h
      · cases h
        exact explSparse_persuade ..
      · split at h
        · cases h
          exact explSparse_solve ..
        · split at h
          · cases h
            exact explSparse_trap ..
          · split at h
            · cases h
              exact explSparse_heal ..
            · split at h
              · cases h
                exact explSparse_break ..
              · split at h
                · cases h
                  exact explSparse_listen ..
                · split at h
                  · cases h
                    exact explSparse_hide ..
                  · cases h
                    simp [explSparse]

theorem explSparse_exploration (action : String) (ctx : Ctx) (s : GameState)
    (g : Nat → Nat) (i : Nat) (r : ROut)
    (h : evaluate_exploration action ctx s g i = .ok r) : explSparse r := by
  unfold evaluate_exploration at h
  dsimp only at h
  split at h
  · cases h
    exact explSparse_sneak ..
  · split at h
    · split at h
      · rename_i r2 heq
        cases h
        exact explSparse_lookStep _ _ _ _ _ heq
      · exact explSparse_rest _ _ _ _ _ h
    · exact explSparse_rest _ _ _ _ _ h

/-- C3 amended: the combat resolver effects dict is not sparse — it always
carries both `damage_taken` and `damage_dealt` (zero-valued when unused) —
and both keys are nonzero in one result only in the generic-attack counter
case: such a result is a success whose narration is the counter narration
reporting both values, so every failure result and every other branch
populates at most one damage key.  Exploration effects dicts are sparse in
the damage keys: `damage_dealt` and `status` are never present, and
`damage_taken` is never present with value zero. -/
theorem combat_damage_keys (action : String) (ctx : Ctx) (s : GameState) (g : Nat → Nat)
    (i : Nat) :
    damageKeysOk (evaluate_combat action ctx s g i) ∧
    (∀ r : ROut, evaluate_exploration action ctx s g i = .ok r → explSparse r) := by
  refine ⟨?_, fun r h => explSparse_exploration action ctx s g i r h⟩
  unfold evaluate_combat
  split
  · exact ⟨⟨rfl, rfl⟩, by simp [combatEffects0]⟩
  · split
    · exact damageKeysOk_dodge ..
    · split
      · exact damageKeysOk_block ..
      · split
        · exact damageKeysOk_eyes ..
        · split
          · exact damageKeysOk_head ..
          · split
            · exact damageKeysOk_legs ..
            · split
              · exact damageKeysOk_throat ..
              · split
                · exact damageKeysOk_fire ..
                · split
                  · exact damageKeysOk_feint ..
                  · split
                    · exact damageKeysOk_grapple ..
                    · exact damageKeysOk_generic ..

/-- Witness for the C3 amended statement: at the concrete both-nonzero call
the theorem forces a success with the counter narration, and a concrete
successful swim is sparse. -/
theorem combat_damage_keys_witness :
    (evaluate_combat "attack" ctxCombat initialState gFirst50 0).succeeded = true ∧
    explSparse ⟨true, "You swim successfully through the water.",
      { stamina_cost := some 20, wetness_increase := some 20 }, 1, initialState⟩ :=
  ⟨((combat_damage_keys "attack" ctxCombat initialState gFirst50 0).1.2
      (by decide) (by decide)).1,
   (combat_damage_keys "swim it" ctxExplore initialState g0 0).2 _ rfl⟩

/-- C5: the three missing-prerequisite combat actions are guaranteed
failures, never exceptions: grapple at strength 3 fails with
`damage_dealt = 0`; fire/burn/torch with no light equipped fails with the
zero effects dict; block/parry/defend with both weapon and offhand empty
fails with 15 to 30 damage taken and the explanatory narration. -/
theorem guaranteed_failures (ctx : Ctx) (s : GameState) (g : Nat → Nat) (i : Nat)
    (hs : ¬ s.status_effects.stunned > 0) :
    (s.strength = 3 →
      evaluate_combat "grapple" ctx s g i =
        ⟨false, "You\x27re not strong enough to grapple effectively!", combatEffects0, i, s⟩) ∧
    (s.equipped.light = none →
      evaluate_combat "fire" ctx s g i =
        ⟨false, "You have no fire source!", combatEffects0, i, s⟩) ∧
    (s.equipped.weapon = none → s.equipped.offhand = none →
      evaluate_combat "block" ctx s g i =
        ⟨false, s!"You have nothing to block with! Take {(randNat g i 15 30 : Int)} damage!",
          { combatEffects0 with damage_taken := some (randNat g i 15 30) }, i + 1, s⟩ ∧
      15 ≤ (randNat g i 15 30 : Int) ∧ (randNat g i 15 30 : Int) ≤ 30) := by
  refine ⟨?_, ?_, ?_⟩
  · intro hstr
    unfold evaluate_combat
    rw [if_neg hs]
    show grappleBranch ctx s g i = _
    unfold grappleBranch
    rw [hstr]
    rfl
  · intro hlight
    unfold evaluate_combat
    rw [if_neg hs]
    show fireBranch ctx s g i = _
    unfold fireBranch
    rw [hlight]
    rfl
  · intro hw ho
    have hmod : g i % 16 < 16 := Nat.mod_lt _ (by norm_num)
    refine ⟨?_, by unfold randNat; omega, by unfold randNat; omega⟩
    unfold evaluate_combat
    rw [if_neg hs]
    show blockBranch s (accuracyMod s) g i = _
    unfold blockBranch
    rw [hw, ho]
    rfl

/-- Witness for C5 at concrete states: strength 3 for grapple, the fresh
unequipped state for fire and block. -/
theorem guaranteed_failures_witness :
    evaluate_combat "grapple" ctxCombat sStrength3 g0 0 =
      ⟨false, "You\x27re not strong enough to grapple effectively!", combatEffects0, 0, sStrength3⟩ ∧
    evaluate_combat "fire" ctxCombat initialState g0 0 =
      ⟨false, "You have no fire source!", combatEffects0, 0, initialState⟩ ∧
    (evaluate_combat "block" ctxCombat initialState g0 0).succeeded = false := by
  refine ⟨(guaranteed_failures ctxCombat sStrength3 g0 0 (by decide)).1 rfl,
    (guaranteed_failures ctxCombat initialState g0 0 (by decide)).2.1 rfl, ?_⟩
  rw [((guaranteed_failures ctxCombat initialState g0 0 (by decide)).2.2 rfl rfl).1]

/-- The generic attack damage before any crit doubling. -/
def genDamage (s : GameState) (g : Nat → Nat) (i : Nat) : Int :=
  max 1 ((randNat g (i + 1) 5 15 : Nat) + s.strength + (if s.equipped.weapon.isSome then (10 : Int) else 0)
    + (if s.equipped.light.isSome then (10 : Int) else -20) + damageMod s + s.combat_bonus.damage)

/-- The generic attack counter chance. -/
def genCounterChance (s : GameState) : Int :=
  if s.equipped.armor.isSome then 50 - s.agility * 3 - accuracyMod s - 15
  else 50 - s.agility * 3 - accuracyMod s

/-- The generic attack counter damage (drawn at stream index `i + 3`). -/
def genCounterDamage (s : GameState) (g : Nat → Nat) (i : Nat) : Int :=
  if s.equipped.armor.isSome then max 3 ((randNat g (i + 3) 8 18 : Nat) - 8)
  else ((randNat g (i + 3) 8 18 : Nat) : Int)

/-- C8 counterexample: a generic attack that crits returns immediately with
`damage_taken` still zero and only two draws consumed, even though the
counter roll — had it been made at the next stream index — would have
succeeded (`1 < 35`); so the crit and counter rolls are not independent
draws and a crit never carries counter damage alongside it. -/
theorem crit_skips_counter :
    evaluate_combat "attack" ctxCombat initialState g0 0 =
      ⟨true, "CRITICAL HIT! You deal 2 damage!",
        { damage_taken := some 0, damage_dealt := some 2, status := some ["critical_hit"] },
        2, initialState⟩ ∧
    ((randNat g0 2 1 100 : Nat) : Int) < genCounterChance initialState := by
  exact ⟨rfl, by decide⟩

/-- C8 amended: in the generic-attack fallback the crit roll comes first and
a crit returns at once — doubled damage, no counter roll, `damage_taken`
zero; only when the attack does not crit is the counter rolled
(chance `50 - agility*3 - accuracyMod`, 15 less with armor), and a
successful counter deals 8 to 18 damage (reduced to `max 3 (x - 8)` with
armor) alongside the player damage in the same, still successful, result. -/
theorem generic_attack_counter (ctx : Ctx) (s : GameState) (g : Nat → Nat) (i : Nat)
    (hs : ¬ s.status_effects.stunned > 0) :
    (((randNat g i 1 100 : Nat) : Int) ≤ 5 + s.agility + s.combat_bonus.critical_chance →
      evaluate_combat "attack" ctx s g i =
        ⟨true, s!"CRITICAL HIT! You deal {genDamage s g i * 2} damage!",
          ({ combatEffects0 with damage_dealt := some (genDamage s g i * 2) }).pushStatus "critical_hit",
          i + 2, s⟩) ∧
    (¬ ((randNat g i 1 100 : Nat) : Int) ≤ 5 + s.agility + s.combat_bonus.critical_chance →
      ((randNat g (i + 2) 1 100 : Nat) : Int) < genCounterChance s →
      evaluate_combat "attack" ctx s g i =
        ⟨true, s!"You deal {genDamage s g i} damage but take {genCounterDamage s g i} in return!",
          { combatEffects0 with damage_dealt := some (genDamage s g i), damage_taken := some (genCounterDamage s g i) }, i + 4, s⟩ ∧
      8 ≤ (randNat g (i + 3) 8 18 : Int) ∧ (randNat g (i + 3) 8 18 : Int) ≤ 18) ∧
    (¬ ((randNat g i 1 100 : Nat) : Int) ≤ 5 + s.agility + s.combat_bonus.critical_chance →
      ¬ ((randNat g (i + 2) 1 100 : Nat) : Int) < genCounterChance s →
      evaluate_combat "attack" ctx s g i =
        ⟨true, s!"You strike for {genDamage s g i} damage!",
          { combatEffects0 with damage_dealt := some (genDamage s g i) }, i + 3, s⟩) := by
  have hbase : ∀ P : ROut → Prop, P (genericAttack s (accuracyMod s) (damageMod s) g i) →
      P (evaluate_combat "attack" ctx s g i) := by
    intro P h
    unfold evaluate_combat
    rw [if_neg hs]
    exact h
  refine ⟨?_, ?_, ?_⟩
  · intro hcrit
    refine hbase (fun r => r = _) ?_
    unfold genericAttack
    dsimp only
    rw [if_pos hcrit]
    rfl
  · intro hcrit hctr
    have hmod : g (i + 3) % 11 < 11 := Nat.mod_lt _ (by norm_num)
    refine ⟨?_, by unfold randNat; omega, by unfold randNat; omega⟩
    refine hbase (fun r => r = _) ?_
    unfold genericAttack
    dsimp only
    rw [if_neg hcrit]
    unfold genCounterChance at hctr
    rw [if_pos hctr]
    rfl
  · intro hcrit hctr
    refine hbase (fun r => r = _) ?_
    unfold genericAttack
    dsimp only
    rw [if_neg hcrit]
    unfold genCounterChance at hctr
    rw [if_neg hctr]
    rfl

/-- Witness for C8 at concrete inputs: a crit (all-zero stream) and a
non-crit with a successful counter (first draw 50). -/
theorem generic_attack_counter_witness :
    evaluate_combat "attack" ctxCombat initialState g0 0 =
      ⟨true, s!"CRITICAL HIT! You deal {genDamage initialState g0 0 * 2} damage!",
        ({ combatEffects0 with damage_dealt := some (genDamage initialState g0 0 * 2) }).pushStatus
          "critical_hit", 2, initialState⟩ ∧
    evaluate_combat "attack" ctxCombat initialState gFirst50 0 =
      ⟨true, s!"You deal {genDamage initialState gFirst50 0} damage but take {genCounterDamage initialState gFirst50 0} in return!",
        { combatEffects0 with damage_dealt := some (genDamage initialState gFirst50 0), damage_taken := some (genCounterDamage initialState gFirst50 0) }, 4, initialState⟩ :=
  ⟨(generic_attack_counter ctxCombat initialState g0 0 (by decide)).1 (by decide),
   ((generic_attack_counter ctxCombat initialState gFirst50 0 (by decide)).2.1 (by decide)
     (by decide)).1⟩

/-- C9 counterexample: with agility exactly 10, wetness 50, both legs and no
light, the dodge chance is 100 but success needs `roll < chance` strictly,
so the maximal roll 100 fails the dodge — agility 10 does not make dodge
unconditional. -/
theorem dodge_at_agility_ten_fails :
    10 ≤ sAgility10.agility ∧ sAgility10.wetness ≤ 60 ∧
    sAgility10.left_leg = true ∧ sAgility10.right_leg = true ∧
    evaluate_combat "dodge" ctxCombat sAgility10 g99 0 =
      ⟨false, "You fail to dodge and take 13 damage!",
        { combatEffects0 with damage_taken := some 13 }, 2, sAgility10⟩ := by
  refine ⟨by decide, by decide, rfl, rfl, rfl⟩

/-- C9 amended: agility at least 11 (not 10) makes the dodge unconditional
at `accuracyMod = 0` for an actor with both legs, wetness at most 60 and no
stun: the chance is then at least 110, strictly above every roll in 1..100,
with or without a light. -/
theorem dodge_unconditional (ctx : Ctx) (s : GameState) (g : Nat → Nat) (i : Nat)
    (ha : 11 ≤ s.agility) (hs : ¬ s.status_effects.stunned > 0)
    (hh : ¬ s.status_effects.hasted > 0) (hsl : ¬ s.status_effects.slowed > 0)
    (hl : s.left_leg = true) (hr : s.right_leg = true) (hw : s.wetness ≤ 60) :
    evaluate_combat "dodge" ctx s g i =
      ⟨true, "You successfully dodge the attack!", combatEffects0, i + 1, s⟩ := by
  unfold evaluate_combat
  rw [if_neg hs]
  show dodgeBranch s (accuracyMod s) g i = _
  have ham : accuracyMod s = 0 := by
    unfold accuracyMod
    rw [if_neg hh, if_neg hsl]
    norm_num
  unfold dodgeBranch
  dsimp only
  have hcond : ((randNat g i 1 100 : Nat) : Int) <
      s.agility * 10 + (if s.equipped.light.isSome then (50 : Int) else 0) + accuracyMod s
        - (if !s.left_leg || !s.right_leg then (20 : Int) else 0)
        - (if s.wetness > 60 then (30 : Int) else 0) := by
    rw [ham, hl, hr, if_neg (by omega : ¬ s.wetness > 60)]
    have hmod : g i % 100 < 100 := Nat.mod_lt _ (by norm_num)
    unfold randNat
    by_cases hli : s.equipped.light.isSome = true <;> simp [hli] <;> omega
  rw [if_pos hcond]

/-- Witness for the C9 amended statement at agility 11. -/
theorem dodge_unconditional_witness :
    evaluate_combat "dodge" ctxCombat
        { initialState with agility := 11, wetness := 50 } g99 0 =
      ⟨true, "You successfully dodge the attack!", combatEffects0, 1,
        { initialState with agility := 11, wetness := 50 }⟩ :=
  dodge_unconditional ctxCombat { initialState with agility := 11, wetness := 50 } g99 0
    (by decide) (by decide) (by decide) (by decide) rfl rfl (by decide)


/-! ## State-frame lemmas: every return site carries the incoming state. -/

theorem dodgeBranch_state (s : GameState) (am : Int) (g : Nat → Nat) (i : Nat) :
    (dodgeBranch s am g i).state = s := by
  unfold dodgeBranch
  dsimp only
  (repeat' split) <;> rfl

theorem blockBranch_state (s : GameState) (am : Int) (g : Nat → Nat) (i : Nat) :
    (blockBranch s am g i).state = s := by
  unfold blockBranch
  dsimp only
  (repeat' split) <;> rfl

theorem eyesBranch_state (ctx : Ctx) (s : GameState) (dm : Int) (g : Nat → Nat) (i : Nat) :
    (eyesBranch ctx s dm g i).state = s := by
  unfold eyesBranch
  dsimp only
  (repeat' split) <;> rfl

theorem headBranch_state (s : GameState) (am dm : Int) (g : Nat → Nat) (i : Nat) :
    (headBranch s am dm g i).state = s := by
  unfold headBranch
  dsimp only
  (repeat' split) <;> rfl

theorem legsBranch_state (ctx : Ctx) (s : GameState) (dm : Int) (g : Nat → Nat) (i : Nat) :
    (legsBranch ctx s dm g i).state = s := by
  unfold legsBranch
  dsimp only
  (repeat' split) <;> rfl

theorem throatBranch_state (s : GameState) (am dm : Int) (g : Nat → Nat) (i : Nat) :
    (throatBranch s am dm g i).state = s := by
  unfold throatBranch
  dsimp only
  (repeat' split) <;> rfl

theorem fireBranch_state (ctx : Ctx) (s : GameState) (g : Nat → Nat) (i : Nat) :
    (fireBranch ctx s g i).state = s := by
  unfold fireBranch
  dsimp only
  (repeat' split) <;> rfl

theorem feintBranch_state (s : GameState) (g : Nat → Nat) (i : Nat) :
    (feintBranch s g i).state = s := by
  unfold feintBranch
  dsimp only
  (repeat' split) <;> rfl

theorem grappleBranch_state (ctx : Ctx) (s : GameState) (g : Nat → Nat) (i : Nat) :
    (grappleBranch ctx s g i).state = s := by
  unfold grappleBranch
  dsimp only
  (repeat' split) <;> rfl

theorem genericAttack_state (s : GameState) (am dm : Int) (g : Nat → Nat) (i : Nat) :
    (genericAttack s am dm g i).state = s := by
  unfold genericAttack
  dsimp only
  (repeat' split) <;> rfl

theorem sneakBranch_state (s : GameState) (g : Nat → Nat) (i : Nat) :
    (sneakBranch s g i).state = s := by
  unfold sneakBranch
  dsimp only
  (repeat' split) <;> rfl

theorem searchAttempt_state (s : GameState) (g : Nat → Nat) (i : Nat) :
    (searchAttempt s g i).state = s := by
  unfold searchAttempt
  dsimp only
  (repeat' split) <;> rfl

theorem swimBranch_state (s : GameState) (g : Nat → Nat) (i : Nat) :
    (swimBranch s g i).state = s := by
  unfold swimBranch
  dsimp only
  (repeat' split) <;> rfl

theorem persuadeBranch_state (s : GameState) (g : Nat → Nat) (i : Nat) :
    (persuadeBranch s g i).state = s := by
  unfold persuadeBranch
  dsimp only
  (repeat' split) <;> rfl

theorem solveBranch_state (s : GameState) (g : Nat → Nat) (i : Nat) :
    (solveBranch s g i).state = s := by
  unfold solveBranch
  dsimp only
  (repeat' split) <;> rfl

theorem trapBranch_state (s : GameState) (g : Nat → Nat) (i : Nat) :
    (trapBranch s g i).state = s := by
  unfold trapBranch
  dsimp only
  (repeat' split) <;> rfl

theorem healBranch_state (s : GameState) (g : Nat → Nat) (i : Nat) :
    (healBranch s g i).state = s := by
  unfold healBranch
  dsimp only
  (repeat' split) <;> rfl

theorem breakBranch_state (s : GameState) (g : Nat → Nat) (i : Nat) :
    (breakBranch s g i).state = s := by
  unfold breakBranch
  dsimp only
  (repeat' split) <;> rfl

theorem listenBranch_state (s : GameState) (g : Nat → Nat) (i : Nat) :
    (listenBranch s g i).state = s := by
  unfold listenBranch
  dsimp only
  (repeat' split) <;> rfl

theorem hideBranch_state (s : GameState) (g : Nat → Nat) (i : Nat) :
    (hideBranch s g i).state = s := by
  unfold hideBranch
  dsimp only
  (repeat' split) <;> rfl

theorem climbBranch_state (s : GameState) (g : Nat → Nat) (i : Nat) (r : ROut)
    (h : climbBranch s g i = .ok r) : r.state = s := by
  unfold climbBranch at h
  split at h
  · cases h
    rfl
  · dsimp only at h
    (repeat' split at h) <;> first
      | (cases h; rfl)
      | exact Except.noConfusion h

theorem lookStep_state (action : String) (s : GameState) (g : Nat → Nat) (i : Nat) (r : ROut)
    (h : lookStep action s g i = .inl r) : r.state = s := by
  unfold lookStep at h
  split at h
  · split at h
    · cases h
      rfl
    · split at h
      · cases h
        exact searchAttempt_state ..
      · exact Sum.noConfusion h
  · split at h
    · cases h
      exact searchAttempt_state ..
    · exact Sum.noConfusion h

theorem explorationRest_state (action : String) (s : GameState) (g : Nat → Nat) (i : Nat)
    (r : ROut) (h : explorationRest action s g i = .ok r) : r.state = s := by
  unfold explorationRest at h
  split at h
  · exact climbBranch_state _ _ _ _ h
  · split at h
    · cases h
      exact swimBranch_state ..
    · split at h
      · cases h
        exact persuadeBranch_state ..
      · split at h
        · cases h
          exact solveBranch_state ..
        · split at h
          · cases h
            exact trapBranch_state ..
          · split at h
            · cases h
              exact healBranch_state ..
            · split at h
              · cases h
                exact breakBranch_state ..
              · split at h
                · cases h
                  exact listenBranch_state ..
                · split at h
                  · cases h
                    exact hideBranch_state ..
                  · cases h
                    rfl

theorem evaluate_exploration_state (action : String) (ctx : Ctx) (s : GameState)
    (g : Nat → Nat) (i : Nat) (r : ROut)
    (h : evaluate_exploration action ctx s g i = .ok r) : r.state = s := by
  unfold evaluate_exploration at h
  dsimp only at h
  split at h
  · cases h
    exact sneakBranch_state ..
  · split at h
    · split at h
      · rename_i r2 heq
        cases h
        exact lookStep_state _ _ _ _ _ heq
      · exact explorationRest_state _ _ _ _ _ h
    · exact explorationRest_state _ _ _ _ _ h

theorem evaluate_combat_state (action : String) (ctx : Ctx) (s : GameState)
    (g : Nat → Nat) (i : Nat) : (evaluate_combat action ctx s g i).state = s := by
  unfold evaluate_combat
  split
  · rfl
  · split
    · exact dodgeBranch_state ..
    · split
      · exact blockBranch_state ..
      · split
        · exact eyesBranch_state ..
        · split
          · exact headBranch_state ..
          · split
            · exact legsBranch_state ..
            · split
              · exact throatBranch_state ..
              · split
                · exact fireBranch_state ..
                · split
                  · exact feintBranch_state ..
                  · split
                    · exact grappleBranch_state ..
                    · exact genericAttack_state ..

theorem evaluate_combat_ai_state (action : String) (aio : Except String AIResp) (ctx : Ctx)
    (s : GameState) (g : Nat → Nat) (i : Nat) :
    (evaluate_combat_ai action aio ctx s g i).state = s := by
  unfold evaluate_combat_ai
  cases aio
  · exact evaluate_combat_state ..
  · rfl

/-- C7: evaluating any action leaves the actor state unchanged — whenever
`evaluate_action` returns a result, the state it carries out of the call is
the state that went in; all outcomes live only in the returned effects
dict (and on the `KeyError` path the state is likewise untouched, the call
simply never returns a result). -/
theorem resolver_frame (ai : Bool) (aio : Except String AIResp) (action : String) (ctx : Ctx)
    (s : GameState) (g : Nat → Nat) (i : Nat) (r : ROut)
    (h : evaluate_action ai aio action ctx s g i = .ok r) : r.state = s := by
  unfold evaluate_action at h
  dsimp only at h
  split at h
  · split at h
    · cases h
      exact evaluate_combat_ai_state ..
    · cases h
      exact evaluate_combat_state ..
  · exact evaluate_exploration_state _ _ _ _ _ _ h

/-- Witness for C7 at a concrete exploration call (the narrative default
branch of the fresh state). -/
theorem resolver_frame_witness :
    (⟨true, "You attempt your action...", {}, 0, initialState⟩ : ROut).state = initialState :=
  resolver_frame false (.error "") "wander around" ctxExplore initialState g0 0
    ⟨true, "You attempt your action...", {}, 0, initialState⟩ rfl


/-! ## Out of combat the resolver never reads the status-effect counters:
per-branch lemmas, then the claim. -/

theorem sneak_ign (s : GameState) (se : StatusEffects) (g : Nat → Nat) (i : Nat) :
    (sneakBranch { s with status_effects := se } g i).result = (sneakBranch s g i).result := by
  unfold sneakBranch
  dsimp only
  (repeat' split) <;> rfl

theorem searchAttempt_ign (s : GameState) (se : StatusEffects) (g : Nat → Nat) (i : Nat) :
    (searchAttempt { s with status_effects := se } g i).result = (searchAttempt s g i).result := by
  unfold searchAttempt
  dsimp only
  (repeat' split) <;> rfl

theorem climb_ign (s : GameState) (se : StatusEffects) (g : Nat → Nat) (i : Nat) :
    (climbBranch { s with status_effects := se } g i).map ROut.result =
      (climbBranch s g i).map ROut.result := by
  unfold climbBranch
  dsimp only
  (repeat' split) <;> rfl

theorem swim_ign (s : GameState) (se : StatusEffects) (g : Nat → Nat) (i : Nat) :
    (swimBranch { s with status_effects := se } g i).result = (swimBranch s g i).result := by
  unfold swimBranch
  dsimp only
  (repeat' split) <;> rfl

theorem persuade_ign (s : GameState) (se : StatusEffects) (g : Nat → Nat) (i : Nat) :
    (persuadeBranch { s with status_effects := se } g i).result = (persuadeBranch s g i).result := by
  unfold persuadeBranch
  dsimp only
  (repeat' split) <;> rfl

theorem solve_ign (s : GameState) (se : StatusEffects) (g : Nat → Nat) (i : Nat) :
    (solveBranch { s with status_effects := se } g i).result = (solveBranch s g i).result := by
  unfold solveBranch
  dsimp only
  (repeat' split) <;> rfl

theorem trap_ign (s : GameState) (se : StatusEffects) (g : Nat → Nat) (i : Nat) :
    (trapBranch { s with status_effects := se } g i).result = (trapBranch s g i).result := by
  unfold trapBranch
  dsimp only
  (repeat' split) <;> rfl

theorem heal_ign (s : GameState) (se : StatusEffects) (g : Nat → Nat) (i : Nat) :
    (healBranch { s with status_effects := se } g i).result = (healBranch s g i).result := by
  unfold healBranch
  dsimp only
  (repeat' split) <;> rfl

theorem break_ign (s : GameState) (se : StatusEffects) (g : Nat → Nat) (i : Nat) :
    (breakBranch { s with status_effects := se } g i).result = (breakBranch s g i).result := by
  unfold breakBranch
  dsimp only
  (repeat' split) <;> rfl

theorem listen_ign (s : GameState) (se : StatusEffects) (g : Nat → Nat) (i : Nat) :
    (listenBranch { s with status_effects := se } g i).result = (listenBranch s g i).result := by
  unfold listenBranch
  dsimp only
  (repeat' split) <;> rfl

theorem hide_ign (s : GameState) (se : StatusEffects) (g : Nat → Nat) (i : Nat) :
    (hideBranch { s with status_effects := se } g i).result = (hideBranch s g i).result := by
  unfold hideBranch
  dsimp only
  (repeat' split) <;> rfl


theorem explorationRest_ign (action : String) (s : GameState) (se : StatusEffects)
    (g : Nat → Nat) (i : Nat) :
    (explorationRest action { s with status_effects := se } g i).map ROut.result =
      (explorationRest action s g i).map ROut.result := by
  unfold explorationRest
  by_cases h1 : (pyIn "climb" action || pyIn "jump" action || pyIn "leap" action) = true
  · rw [if_pos h1, if_pos h1]
    exact climb_ign ..
  · rw [if_neg h1, if_neg h1]
    by_cases h2 : (pyIn "swim" action || pyIn "dive" action || pyIn "underwater" action) = true
    · rw [if_pos h2, if_pos h2]
      exact congrArg Except.ok (swim_ign ..)
    · rw [if_neg h2, if_neg h2]
      by_cases h3 : (pyIn "persuade" action || pyIn "convince" action || pyIn "talk" action
          || pyIn "negotiate" action) = true
      · rw [if_pos h3, if_pos h3]
        exact congrArg Except.ok (persuade_ign ..)
      · rw [if_neg h3, if_neg h3]
        by_cases h4 : (pyIn "solve" action || pyIn "decipher" action || pyIn "puzzle" action
            || pyIn "read" action) = true
        · rw [if_pos h4, if_pos h4]
          exact congrArg Except.ok (solve_ign ..)
        · rw [if_neg h4, if_neg h4]
          by_cases h5 : (pyIn "trap" action || pyIn "disarm" action || pyIn "disable" action) = true
          · rw [if_pos h5, if_pos h5]
            exact congrArg Except.ok (trap_ign ..)
          · rw [if_neg h5, if_neg h5]
            by_cases h6 : (pyIn "heal" action || pyIn "bandage" action || pyIn "medicine" action) = true
            · rw [if_pos h6, if_pos h6]
              exact congrArg Except.ok (heal_ign ..)
            · rw [if_neg h6, if_neg h6]
              by_cases h7 : (pyIn "break" action || pyIn "smash" action || pyIn "destroy" action) = true
              · rw [if_pos h7, if_pos h7]
                exact congrArg Except.ok (break_ign ..)
              · rw [if_neg h7, if_neg h7]
                by_cases h8 : (pyIn "listen" action || pyIn "hear" action) = true
                · rw [if_pos h8, if_pos h8]
                  exact congrArg Except.ok (listen_ign ..)
                · rw [if_neg h8, if_neg h8]
                  by_cases h9 : (pyIn "hide" action || pyIn "conceal" action) = true
                  · rw [if_pos h9, if_pos h9]
                    exact congrArg Except.ok (hide_ign ..)
                  · rw [if_neg h9, if_neg h9]
                    rfl


theorem evaluate_exploration_ign (action : String) (ctx : Ctx) (s : GameState)
    (se : StatusEffects) (g : Nat → Nat) (i : Nat) :
    (evaluate_exploration action ctx { s with status_effects := se } g i).map ROut.result =
      (evaluate_exploration action ctx s g i).map ROut.result := by
  unfold evaluate_exploration lookStep
  try dsimp only
  by_cases hsneak : (pyIn "sneak" action || pyIn "stealth" action || pyIn "quiet" action) = true
  · rw [if_pos hsneak, if_pos hsneak]
    exact congrArg Except.ok (sneak_ign ..)
  · rw [if_neg hsneak, if_neg hsneak]
    by_cases hlook : (pyIn "search" action || pyIn "look" action || pyIn "examine" action) = true
    · rw [if_pos hlook, if_pos hlook]
      by_cases hli : s.equipped.light.isNone = true
      · rw [if_pos hli, if_pos hli]
        by_cases hdark : ((randNat g i 1 100 : Nat) : Int) > 30
        · rw [if_pos hdark, if_pos hdark]
          rfl
        · rw [if_neg hdark, if_neg hdark]
          by_cases hsearch : pyIn "search" action = true
          · rw [if_pos hsearch, if_pos hsearch]
            exact congrArg Except.ok (searchAttempt_ign ..)
          · rw [if_neg hsearch, if_neg hsearch]
            exact explorationRest_ign ..
      · rw [if_neg hli, if_neg hli]
        by_cases hsearch : pyIn "search" action = true
        · rw [if_pos hsearch, if_pos hsearch]
          exact congrArg Except.ok (searchAttempt_ign ..)
        · rw [if_neg hsearch, if_neg hsearch]
          exact explorationRest_ign ..
    · rw [if_neg hlook, if_neg hlook]
      exact explorationRest_ign ..

/-- C10: out of combat the resolver ignores status effects entirely: two
states differing only in `status_effects` produce identical observable
results (success flag, narration, effects, draws consumed) for every action
text and stream — in particular a stunned actor explores exactly as if not
stunned. -/
theorem exploration_ignores_status (ai : Bool) (aio : Except String AIResp) (action : String)
    (ctx : Ctx) (s : GameState) (se : StatusEffects) (g : Nat → Nat) (i : Nat)
    (hc : ctx.in_combat = false) :
    (evaluate_action ai aio action ctx { s with status_effects := se } g i).map ROut.result =
      (evaluate_action ai aio action ctx s g i).map ROut.result := by
  unfold evaluate_action
  dsimp only
  simp only [hc, Bool.false_eq_true, if_false]
  exact evaluate_exploration_ign ..

/-- Witness for C10: a stunned actor sneaking out of combat gets the result
of the fresh (unstunned) state. -/
theorem exploration_ignores_status_witness :
    (evaluate_action false (.error "") "sneak past" ctxExplore
        { initialState with status_effects := ⟨0, 0, 0, 0, 2, 0, 0, 0, 0⟩ } g0 0).map ROut.result =
      (evaluate_action false (.error "") "sneak past" ctxExplore initialState g0 0).map ROut.result :=
  exploration_ignores_status false (.error "") "sneak past" ctxExplore initialState
    ⟨0, 0, 0, 0, 2, 0, 0, 0, 0⟩ g0 0 rfl

end Zagreus
